import Mathlib

/- A verification development for the db_chat repository: a shallow embedding of
the intent router, the five request handlers, the streaming gateway wrappers, the
response sanitizers, the session-history bookkeeping and the partial-schema
renderer of src/chat_with_db.py and src/app.py, with theorems about the routing
and error-handling behaviour. External collaborators (the LLM service, the
database, json.loads / ast.literal_eval, the chart and report generators, the
filesystem) enter as explicit oracle parameters; strings and lists are modelled
exactly as the source manipulates them. -/

namespace DbChat

/-- The backtick character, written numerically. -/
def btick : Char := Char.ofNat 96

/-- begins pat s is true when pat is a leading segment of s (models Python str.startswith). -/
def begins : List Char → List Char → Bool
  | [], _ => true
  | _ :: _, [] => false
  | p :: ps, c :: cs => p == c && begins ps cs

/-- hasSub pat s is true when pat occurs contiguously inside s (models Python `pat in s`). -/
def hasSub : List Char → List Char → Bool
  | pat, [] => begins pat []
  | pat, c :: rest => begins pat (c :: rest) || hasSub pat rest

def strContains (s pat : String) : Bool := hasSub pat.data s.data

def strStartsWith (s pre : String) : Bool := begins pre.data s.data

/-- Characters removed by Python str.strip() with no arguments (ASCII whitespace). -/
def pySpace (c : Char) : Bool :=
  c = ' ' || c = '\t' || c = '\n' || c = '\r' || c = '\x0b' || c = '\x0c'

def dropW : List Char → List Char
  | [] => []
  | c :: rest => if pySpace c then dropW rest else c :: rest

/-- Python str.strip(): drop whitespace from both ends. -/
def pyStrip (l : List Char) : List Char := (dropW (dropW l).reverse).reverse

/-- Python str.replace("\x60\x60\x60", ""): leftmost, non-overlapping removal. -/
def repl3 : List Char → List Char
  | c :: d :: e :: rest =>
    if c = btick ∧ d = btick ∧ e = btick then repl3 rest
    else c :: repl3 (d :: e :: rest)
  | s => s

/-- Python str.replace("\x60\x60\x60sql", ""). -/
def replSql : List Char → List Char
  | c1 :: c2 :: c3 :: c4 :: c5 :: c6 :: rest =>
    if c1 = btick ∧ c2 = btick ∧ c3 = btick ∧ c4 = 's' ∧ c5 = 'q' ∧ c6 = 'l' then replSql rest
    else c1 :: replSql (c2 :: c3 :: c4 :: c5 :: c6 :: rest)
  | s => s

/-- Python str.replace("\x60\x60\x60json", ""). -/
def replJson : List Char → List Char
  | c1 :: c2 :: c3 :: c4 :: c5 :: c6 :: c7 :: rest =>
    if c1 = btick ∧ c2 = btick ∧ c3 = btick ∧ c4 = 'j' ∧ c5 = 's' ∧ c6 = 'o' ∧ c7 = 'n' then
      replJson rest
    else c1 :: replJson (c2 :: c3 :: c4 :: c5 :: c6 :: c7 :: rest)
  | s => s

def delNl : List Char → List Char
  | [] => []
  | c :: rest => if c = '\n' then delNl rest else c :: delNl rest

def delCr : List Char → List Char
  | [] => []
  | c :: rest => if c = '\r' then delCr rest else c :: delCr rest

/-- Source clean_sql_query: sql.replace("\x60\x60\x60sql", "").replace("\x60\x60\x60", "").strip(). -/
def clean_sql_query (s : String) : String :=
  String.mk (pyStrip (repl3 (replSql s.data)))

/-- Source _clean_json_response: strip markdown fences, strip, then drop newlines and CRs. -/
def _clean_json_response (s : String) : String :=
  String.mk (delCr (delNl (pyStrip (repl3 (replJson s.data)))))

def t3 : List Char := [btick, btick, btick]

def t6 : List Char := [btick, btick, btick, 's', 'q', 'l']

/-- Python lowercasing used by the error classifiers (str.lower()). -/
def lowerStr (s : String) : String := String.mk (s.data.map Char.toLower)

/-- Outcome of a Python call: a returned value or a raised exception. -/
inductive PyResult (α : Type) where
  | ok (a : α)
  | exc (msg : String)
deriving DecidableEq

/-- DBChatBot.process_streaming_response: accumulates non-empty chunk contents; raises
on zero fragments, converting it in its own handler to an explicit error message.
chunks are the streamed fragment contents; exc models a transport exception mid-stream. -/
def process_streaming_response (chunks : List String) (exc : Option String) : String :=
  match exc with
  | some e =>
    if strContains (lowerStr e) "timeout" then "抱歉，服务响应超时。建议稍后重试或尝试简化您的问题。"
    else if strContains (lowerStr e) "connection" then "抱歉，连接服务失败。请检查网络连接或稍后重试。"
    else "处理响应时发生错误: " ++ e ++ "\n建议稍后重试。"
  | none =>
    let full := chunks.filter (fun c => c ≠ "")
    if full.isEmpty then "处理响应时发生错误: 未收到有效响应\n建议稍后重试。"
    else String.join full

/-- DBChatBot._handle_streaming: the streaming path used by every handler. On the
success path it returns the concatenation of non-empty chunk contents with no
emptiness check. -/
def _handle_streaming (errorPre : String) (chunks : List String) (exc : Option String) : String :=
  match exc with
  | some e =>
    if strContains (lowerStr e) "timeout" then errorPre ++ "超时，请稍后重试。"
    else if strContains (lowerStr e) "connection" then "连接服务失败，请检查网络。"
    else errorPre ++ "出错: " ++ e
  | none => String.join (chunks.filter (fun c => c ≠ ""))

/-- run_query: db.run wrapped so that SQL errors come back as a diagnostic string. -/
def run_query (dbRun : String → PyResult String) (query : String) : String :=
  match dbRun query with
  | .ok r => r
  | .exc e => "查询执行错误: " ++ e

/-- DBChatBot.handle_sql_data: three-stage pipeline with the stage-1 marker check.
fmtSql/fmtExplain model the prompt templates, stream the streaming LLM call,
dbRun the database. -/
def handle_sql_data (question schemaStr : String) (fmtSql : String → String → String)
    (fmtExplain : String → String → String → String) (stream : String → String)
    (dbRun : String → PyResult String) : String :=
  let sqlResponse := stream (fmtSql schemaStr question)
  if strContains sqlResponse "出错" || strContains sqlResponse "超时" then sqlResponse
  else
    let sqlCleaned := clean_sql_query sqlResponse
    let result := run_query dbRun sqlCleaned
    stream (fmtExplain question sqlCleaned result)

/-- Row sets returned by ast.literal_eval of a query result. -/
abbrev Rows := List (List String)

structure ChartInfo where
  static_path : String
  interactive_path : String
  title : String
  description : String

def requiredFields : List String :=
  ["chart_type", "sql", "title", "x_label", "y_label", "description"]

def validChartTypes : List String := ["bar", "line", "pie", "scatter"]

def missingFieldsOf (config : List (String × String)) : List String :=
  requiredFields.filter (fun f => (config.lookup f).isNone)

def vis_envelope (ci : ChartInfo) : String :=
  "\x7b\"type\": \"visualization\", \"data\": \x7b\"static_chart\": \"" ++ ci.static_path ++
  "\", \"interactive_chart\": \"" ++ ci.interactive_path ++ "\", \"title\": \"" ++ ci.title ++
  "\", \"description\": \"" ++ ci.description ++ "\"\x7d\x7d"

/-- DBChatBot.handle_visualization after the config JSON has been parsed:
field validation, chart-type validation, then SQL execution and chart generation. -/
def handle_visualization_postparse (config : List (String × String)) (runQ : String → String)
    (lit : String → PyResult Rows) (gen : Rows → List (String × String) → PyResult ChartInfo)
    (fexists : String → Bool) : String :=
  let missing := missingFieldsOf config
  if missing.isEmpty then
    match config.lookup "chart_type" with
    | none => ""
    | some ct =>
      if validChartTypes.contains ct then
        let data0 := runQ ((config.lookup "sql").getD "")
        if strContains data0 "错误" then "查询数据时出错: " ++ data0
        else
          match lit data0 with
          | .exc e => "解析查询结果失败: " ++ e
          | .ok rows =>
            if rows.isEmpty then "查询结果为空，无法生成图表"
            else
              match gen rows config with
              | .exc e => "生成图表时出错: " ++ e
              | .ok ci =>
                if fexists ci.static_path = false then "静态图表文件生成失败"
                else if fexists ci.interactive_path = false then "交互式图表文件生成失败"
                else vis_envelope ci
      else "不支持的图表类型: " ++ ct
  else "图表配置缺少必要字段: " ++ String.intercalate ", " missing

/-- DBChatBot.handle_visualization: partial-schema error check, config generation,
marker check, JSON parse, then the post-parse stage. The second component records
the prompt sent to the streaming call (none when rejected before any call). -/
def handle_visualization (question schemaStr : String) (fmtVis : String → String → String)
    (stream : String → String) (loadsCfg : String → PyResult (List (String × String)))
    (runQ : String → String) (lit : String → PyResult Rows)
    (gen : Rows → List (String × String) → PyResult ChartInfo) (fexists : String → Bool) :
    String × Option String :=
  if strContains schemaStr "错误" then ("获取数据库结构失败：" ++ schemaStr, none)
  else
    let prompt := fmtVis schemaStr question
    let configResponse := stream prompt
    if strContains configResponse "错误" || strContains configResponse "超时" then
      (configResponse, some prompt)
    else
      match loadsCfg (String.mk (pyStrip configResponse.data)) with
      | .exc e => ("生成的图表配置格式无效: " ++ e, some prompt)
      | .ok config => (handle_visualization_postparse config runQ lit gen fexists, some prompt)

/-- DBChatBot.handle_db_structure: partial-schema error check, then one streaming call.
The second component records the prompt sent (none when rejected early). -/
def handle_db_structure (question schemaStr : String) (fmtDb : String → String → String)
    (stream : String → String) : String × Option String :=
  if strContains schemaStr "错误" then ("获取数据库结构失败：" ++ schemaStr, none)
  else
    let prompt := fmtDb question schemaStr
    (stream prompt, some prompt)

structure QueryInfo where
  name : String
  sql : String
  visualization : Option (List (String × String))

structure Outline where
  title : Option String
  sections : Option Unit
  queries : Option (List QueryInfo)

/-- The required-field loop of handle_report raises at the first missing outline key. -/
def outlineFirstMissing (o : Outline) : Option String :=
  if o.title.isNone then some "title"
  else if o.sections.isNone then some "sections"
  else if o.queries.isNone then some "queries"
  else none

/-- The per-query loop of handle_report: execute each query, skip it on failure,
collect chart work items and query results in order. lit models ast.literal_eval
composed over the run_query string result; a failure anywhere in the loop body is
one exc outcome. -/
def collectReportData (runQ : String → String) (lit : String → PyResult Rows) :
    List QueryInfo → List (Rows × List (String × String)) × List (String × Rows)
  | [] => ([], [])
  | q :: rest =>
    let r := collectReportData runQ lit rest
    match lit (runQ q.sql) with
    | .exc _ => r
    | .ok rows =>
      let charts :=
        match q.visualization with
        | some cfg => if cfg.isEmpty then r.1 else (rows, cfg) :: r.1
        | none => r.1
      (charts, (q.name, rows) :: r.2)

def report_envelope (fmt path title : String) : String :=
  "\x7b\"type\": \"report\", \"data\": \x7b\"format\": \"" ++ fmt ++ "\", \"path\": \"" ++ path ++
  "\", \"title\": \"" ++ title ++ "\"\x7d\x7d"

/-- DBChatBot.handle_report after outline validation: run the per-query loop,
generate the report body from the collected results, delegate to the report
generator, and wrap the outcome in the report envelope. -/
def handle_report_from_outline (question : String) (outline : Outline) (runQ : String → String)
    (lit : String → PyResult Rows) (stream : String → String)
    (fmtContent : String → String → String → String) (dumpO : Outline → String)
    (dumpR : List (String × Rows) → String)
    (gen : String → String → List (Rows × List (String × String)) → PyResult (String × String)) :
    String :=
  let collected := collectReportData runQ lit (outline.queries.getD [])
  let content := stream (fmtContent question (dumpO outline) (dumpR collected.2))
  match gen (outline.title.getD "") content collected.1 with
  | .ok fp => report_envelope fp.1 fp.2 (outline.title.getD "")
  | .exc e => "生成报告时出错: " ++ e

/-- The variable-bearing human message of the report outline prompt template,
with the partial schema substituted verbatim. -/
def report_outline_human (question schemaStr historyText : String) : String :=
  "\n            数据库结构：\n            " ++ schemaStr ++
  "\n            \n            历史记录：\n            " ++ historyText ++
  "\n            \n            用户需求：" ++ question ++ "\n            "

/-- DBChatBot.handle_report: fetches the schema with no error-marker check, formats
the outline prompt with it, then validates the streamed outline. The second
component records the outline prompt sent to the streaming call. -/
def handle_report (question historyText schemaStr : String) (stream : String → String)
    (loadsOutline : String → PyResult Outline) (runQ : String → String)
    (lit : String → PyResult Rows) (fmtContent : String → String → String → String)
    (dumpO : Outline → String) (dumpR : List (String × Rows) → String)
    (gen : String → String → List (Rows × List (String × String)) → PyResult (String × String)) :
    String × Option String :=
  let prompt := report_outline_human question schemaStr historyText
  let outlineResponse := stream prompt
  match loadsOutline outlineResponse with
  | .exc e => ("生成的报告大纲格式无效: " ++ e ++ "\n原始响应: " ++ outlineResponse, some prompt)
  | .ok outline =>
    match outlineFirstMissing outline with
    | some f => ("报告大纲验证失败: 大纲缺少必要字段: " ++ f, some prompt)
    | none =>
      (handle_report_from_outline question outline runQ lit stream fmtContent dumpO dumpR gen,
       some prompt)

/-- Primitive JSON values as produced by json.loads for the router fields. -/
inductive JPrim where
  | jnull
  | jbool (b : Bool)
  | jnum (n : Int)
  | jstr (s : String)
deriving DecidableEq

/-- Top-level JSON values returned by json.loads: an object, a list, or a primitive. -/
inductive JTop where
  | jobj (fields : List (String × JPrim))
  | jarr (size : Nat)
  | jprim (p : JPrim)
deriving DecidableEq

/-- Python truthiness of a primitive, as used by the `if not top_type` checks. -/
def pyTruthy : JPrim → Bool
  | .jnull => false
  | .jbool b => b
  | .jnum n => n != 0
  | .jstr s => s ≠ ""

/-- Python str() of a primitive, as used in f-string interpolation. -/
def pyStr : JPrim → String
  | .jstr s => s
  | .jnull => "None"
  | .jbool true => "True"
  | .jbool false => "False"
  | .jnum n => toString n

def pyReprPrim : JPrim → String
  | .jstr s => "\x27" ++ s ++ "\x27"
  | p => pyStr p

/-- Approximate Python repr of a parsed JSON value, used in the router error texts. -/
def pyRepr : JTop → String
  | .jobj fields =>
    "\x7b" ++ String.intercalate ", "
      (fields.map (fun kv => "\x27" ++ kv.1 ++ "\x27: " ++ pyReprPrim kv.2)) ++ "\x7d"
  | .jarr n => "[" ++ toString n ++ " items]"
  | .jprim p => pyReprPrim p

inductive Dispatch where
  | dbStructure
  | sqlData
  | report
  | visualization
  | chat
deriving DecidableEq

/-- True for the two dispatch targets reached through a sub-intent. -/
def Dispatch.carriesSub : Dispatch → Bool
  | .dbStructure => true
  | .sqlData => true
  | _ => false

/-- Oracles for one run of route_and_process: availability of the LLM, the two
classification responses, the JSON parser outcomes, and the five handler results. -/
structure RouteOracles where
  llmOk : PyResult Unit
  routerResp : PyResult String
  loads : String → PyResult JTop
  subResp : PyResult String
  hDb : String
  hData : String
  hReport : String
  hVis : String
  hChat : String

/-- Observable outcome of route_and_process: the returned string or escaped
exception, whether the second (sub-intent) classification call was issued, which
handler was dispatched, and the top-level type value that was examined. -/
structure RouteOutcome where
  result : PyResult String
  subCalled : Bool
  dispatched : Option Dispatch
  topSeen : Option JPrim

/-- The sql_query branch of route_and_process: the second classification call. -/
def route_sub (o : RouteOracles) (t : JPrim) : RouteOutcome :=
  match o.subResp with
  | .exc e => ⟨.ok ("SQL子路由处理失败: " ++ e), true, none, some t⟩
  | .ok c2 =>
    match o.loads (_clean_json_response c2) with
    | .exc _ =>
      ⟨.ok ("SQL子路由返回的不是有效的JSON格式: " ++ _clean_json_response c2), true, none, some t⟩
    | .ok (.jobj f2) =>
      match f2.lookup "sub_type" with
      | none =>
        ⟨.ok ("无法解析子路由结果，缺少 \x27sub_type\x27: " ++ pyRepr (.jobj f2)), true, none, some t⟩
      | some st =>
        if pyTruthy st = false then
          ⟨.ok ("无法解析子路由结果，缺少 \x27sub_type\x27: " ++ pyRepr (.jobj f2)), true, none, some t⟩
        else if st = .jstr "db_structure" then ⟨.ok o.hDb, true, some .dbStructure, some t⟩
        else if st = .jstr "sql_data" then ⟨.ok o.hData, true, some .sqlData, some t⟩
        else ⟨.ok ("未知的sub_type: " ++ pyStr st), true, none, some t⟩
    | .ok _ => ⟨.exc "AttributeError: object has no attribute get", true, none, some t⟩

/-- Dispatch on the top-level type value of the first classification. -/
def route_top (o : RouteOracles) (fields : List (String × JPrim)) : RouteOutcome :=
  match fields.lookup "type" with
  | none =>
    ⟨.ok ("无法解析路由结果，缺少 \x27type\x27 字段: " ++ pyRepr (.jobj fields)), false, none, none⟩
  | some t =>
    if pyTruthy t = false then
      ⟨.ok ("无法解析路由结果，缺少 \x27type\x27 字段: " ++ pyRepr (.jobj fields)), false, none, some t⟩
    else if t = .jstr "sql_query" then route_sub o t
    else if t = .jstr "report" then ⟨.ok o.hReport, false, some .report, some t⟩
    else if t = .jstr "visualization" then ⟨.ok o.hVis, false, some .visualization, some t⟩
    else if t = .jstr "chat" then ⟨.ok o.hChat, false, some .chat, some t⟩
    else ⟨.ok ("未知的type: " ++ pyStr t), false, none, some t⟩

/-- DBChatBot.route_and_process: availability check, first classification with
cleaning and JSON parsing, then dispatch; the sql_query branch issues the second
classification call. -/
def route_and_process (o : RouteOracles) : RouteOutcome :=
  match o.llmOk with
  | .exc e =>
    ⟨.ok ("抱歉，LLM服务暂时不可用: " ++ e ++ "\n建议稍后重试或联系管理员。"), false, none, none⟩
  | .ok _ =>
    match o.routerResp with
    | .exc e =>
      ⟨.ok ("抱歉，服务暂时响应较慢或不可用: " ++ e ++ "\n建议稍后重试。"), false, none, none⟩
    | .ok content =>
      match o.loads (_clean_json_response content) with
      | .exc _ =>
        ⟨.ok ("路由返回的不是有效的JSON格式: " ++ _clean_json_response content), false, none, none⟩
      | .ok (.jobj fields) => route_top o fields
      | .ok _ => ⟨.exc "AttributeError: object has no attribute get", false, none, none⟩

/-- DBChatBot._format_history: renders history turns for the prompts. -/
def _format_history (history : List (String × String)) : String :=
  String.intercalate "\n"
    (history.flatMap (fun qa => ["用户问题：" ++ qa.1, "助手回答：" ++ qa.2, "---"]))

/-- DBChatBot.chat: the conversation entry point. On a normal return the turn is
appended to the caller-supplied history list (line 808); when an exception escapes
the pipeline it is converted to an apology string and nothing is appended. -/
def chat (question : String) (history : List (String × String))
    (router : String → String → RouteOracles) : String × List (String × String) :=
  match (route_and_process (router question (_format_history history))).result with
  | .ok result => (result, history ++ [(question, result)])
  | .exc e => ("抱歉，处理您的问题时出现错误: " ++ e, history)

/-- app.py main chat submission: calls chat on the shared session history and then
appends the turn again only when the response does not begin with a failure marker. -/
def app_exchange (question : String) (history : List (String × String))
    (router : String → String → RouteOracles) : List (String × String) :=
  let res := chat question history router
  if strStartsWith res.1 "抱歉" || strStartsWith res.1 "错误" then res.2
  else res.2 ++ [(question, res.1)]

structure ColumnDescr where
  name : String
  ctype : String
  nullable : String
  cdefault : Option String
  comment : String

structure FkDescr where
  column : String
  refTable : String
  refColumn : String

structure TableDescr where
  name : String
  comment : String
  columns : List ColumnDescr
  fks : List FkDescr

structure Database where
  tables : List TableDescr

def charListLe : List Char → List Char → Bool
  | [], _ => true
  | _ :: _, [] => false
  | x :: xs, y :: ys => if x < y then true else if y < x then false else charListLe xs ys

def strLe (a b : String) : Bool := charListLe a.data b.data

def commentRank (t : TableDescr) : Nat := if t.comment = "" then 1 else 0

/-- Ordering of the importance query: reference count descending, commented tables
first, then table name ascending. -/
def tableLe (a b : TableDescr) : Bool :=
  if b.fks.length < a.fks.length then true
  else if a.fks.length < b.fks.length then false
  else if commentRank a < commentRank b then true
  else if commentRank b < commentRank a then false
  else strLe a.name b.name

def insertTable (x : TableDescr) : List TableDescr → List TableDescr
  | [] => [x]
  | y :: rest => if tableLe x y then x :: y :: rest else y :: insertTable x rest

def sortTables : List TableDescr → List TableDescr
  | [] => []
  | x :: rest => insertTable x (sortTables rest)

/-- The importance query of get_partial_schema: ORDER BY the importance key,
LIMIT max_tables. -/
def selectTables (db : Database) (maxTables : Nat) : List TableDescr :=
  (sortTables db.tables).take maxTables

def sep50 : String := String.mk (List.replicate 50 '=')

def renderCol (c : ColumnDescr) : String :=
  "- " ++ c.name ++ " (" ++ c.ctype ++ ") " ++
  (if c.nullable = "YES" then "可空" else "非空") ++ " " ++
  (match c.cdefault with
   | some d => if d = "" then "无默认值" else "默认值: " ++ d
   | none => "无默认值") ++
  "\n  描述: " ++ (if c.comment = "" then "无描述" else c.comment)

def renderFk (fk : FkDescr) : String :=
  "- " ++ fk.column ++ " -> " ++ fk.refTable ++ "." ++ fk.refColumn

/-- One iteration of the per-table loop of get_partial_schema: name, comment,
at most max_columns column lines, foreign keys, separator. An empty column list
short-circuits the rest of the iteration (the `continue` branch). -/
def renderTable (maxColumns : Nat) (t : TableDescr) : List String :=
  ["\n表名：" ++ t.name, "表描述：" ++ (if t.comment = "" then "无描述" else t.comment)] ++
  (if (t.columns.take maxColumns).isEmpty then ["\n该表没有列信息"]
   else
    ["\n重要字段："] ++ (t.columns.take maxColumns).map renderCol ++
    (if t.fks.isEmpty then [] else ["\n关联关系："] ++ t.fks.map renderFk) ++
    ["\n" ++ sep50])

/-- The schema_info list built by get_partial_schema before joining. -/
def partialSchemaLines (db : Database) (maxTables maxColumns : Nat) : List String :=
  "重要表结构信息：\n" :: (selectTables db maxTables).flatMap (renderTable maxColumns)

/-- get_partial_schema: empty importance-query result short-circuits; otherwise the
schema_info lines are joined with newlines. -/
def get_partial_schema (db : Database) (maxTables maxColumns : Nat) : String :=
  if (selectTables db maxTables).isEmpty then "数据库中没有找到表"
  else String.intercalate "\n" (partialSchemaLines db maxTables maxColumns)

def exRouterAttr : String → String → RouteOracles := fun _ _ =>
  ⟨.ok (), .ok "[1, 2]", fun _ => .ok (.jarr 2), .ok "", "", "", "", "", ""⟩

def exFmt2 : String → String → String := fun a b => a ++ b

def exFmt3 : String → String → String → String := fun a b c => a ++ b ++ c

def exStream5a : String → String := fun _ => "SQL生成超时，请稍后重试。"

def exStream5b : String → String := fun _ => "SELECT 1"

def exDbRun : String → PyResult String := fun _ => .ok "[(1,)]"

def exDbRunE : String → PyResult String := fun _ => .exc "boom"

def exCfgMissingY : List (String × String) :=
  [("chart_type", "bar"), ("sql", "SELECT a, b FROM t"), ("title", "标题"),
   ("x_label", "X"), ("description", "说明")]

def exCfgDonut : List (String × String) :=
  [("chart_type", "donut"), ("sql", "SELECT a, b FROM t"), ("title", "标题"),
   ("x_label", "X"), ("y_label", "Y"), ("description", "说明")]

def exRunQ6 : String → String := fun _ => "[[1, 2]]"

def exLit6 : String → PyResult Rows := fun _ => .ok [["1", "2"]]

def exGen6 : Rows → List (String × String) → PyResult ChartInfo := fun _ _ => .exc "unused"

def exFe6 : String → Bool := fun _ => true

def exRouterFail : String → String → RouteOracles := fun _ _ =>
  ⟨.ok (), .exc "timeout", fun _ => .exc "unused", .ok "", "", "", "", "", ""⟩

def exRouterOk : String → String → RouteOracles := fun _ _ =>
  ⟨.ok (), .ok "ok", fun _ => .ok (.jobj [("type", .jstr "chat")]), .ok "",
   "", "", "", "", "这是一个友好的回答"⟩

/-- Two execution outcomes that drive the per-query loop identically: equal row
sets, or both failures (the error message is irrelevant to the loop). -/
def sameShape : PyResult Rows → PyResult Rows → Prop
  | .ok a, .ok b => a = b
  | .exc _, .exc _ => True
  | _, _ => False

def exQ1 : QueryInfo := ⟨"查询一", "SELECT A", none⟩

def exQbad : QueryInfo := ⟨"查询二", "SELECT BAD", none⟩

def exQ3 : QueryInfo := ⟨"查询三", "SELECT C", some [("chart_type", "bar")]⟩

def exRunQ7 : String → String :=
  fun s => if s = "SELECT BAD" then "查询执行错误: no table" else "[[1, 2]]"

def exRunQ7E : String → String :=
  fun s => if s = "SELECT BAD" then "查询执行错误: other" else "[[1, 2]]"

def exLit7 : String → PyResult Rows :=
  fun s => if s = "[[1, 2]]" then .ok [["1", "2"]] else .exc "invalid literal"

def exOutline7 : Outline := ⟨some "分析报告", some (), some [exQ1, exQbad, exQ3]⟩

def exStream7 : String → String := fun _ => "报告正文"

def exDumpO : Outline → String := fun _ => "大纲"

def exDumpR : List (String × Rows) → String := fun rs => toString rs.length

def exGen7 : String → String → List (Rows × List (String × String)) → PyResult (String × String) :=
  fun _ _ _ => .ok ("markdown", "reports/r.md")

def exRoute8 : RouteOracles :=
  ⟨.ok (), .ok "r", fun _ => .ok (.jobj [("type", .jstr "report")]), .ok "",
   "", "", "结构说明", "", ""⟩

def exSchemaErr : String := "表信息格式错误: dict"

def exLoadsCfg : String → PyResult (List (String × String)) := fun _ => .exc "解析失败"

def exLoadsOutline : String → PyResult Outline := fun _ => .exc "解析失败"

def exTableA : TableDescr := ⟨"alpha", "甲表", [⟨"id", "int", "NO", none, "主键"⟩], []⟩

def exTableB : TableDescr := ⟨"beta", "乙表", [], []⟩

def exDb1T : Database := ⟨[exTableA]⟩

def exDb2T : Database := ⟨[exTableA, exTableB]⟩

theorem begins_append_self (p rest : List Char) : begins p (p ++ rest) = true := by
  induction p with
  | nil => simp [begins]
  | cons a as ih => simp [begins, ih]

theorem begins_eq_true_iff (p s : List Char) : begins p s = true ↔ ∃ v, s = p ++ v := by
  induction p generalizing s with
  | nil => simp [begins]
  | cons a as ih =>
    cases s with
    | nil => simp [begins]
    | cons c cs =>
      simp only [begins, Bool.and_eq_true, beq_iff_eq, ih]
      constructor
      · rintro ⟨rfl, v, rfl⟩; exact ⟨v, rfl⟩
      · rintro ⟨v, hv⟩
        cases hv
        exact ⟨rfl, v, rfl⟩

theorem hasSub_iff (pat s : List Char) : hasSub pat s = true ↔ ∃ u v, s = u ++ pat ++ v := by
  induction s with
  | nil =>
    simp only [hasSub, begins_eq_true_iff]
    constructor
    · rintro ⟨v, hv⟩; exact ⟨[], v, hv⟩
    · rintro ⟨u, v, huv⟩
      rcases u with _ | ⟨c, u⟩
      · exact ⟨v, huv⟩
      · simp at huv
  | cons c rest ih =>
    simp only [hasSub, Bool.or_eq_true, begins_eq_true_iff, ih]
    constructor
    · rintro (⟨v, hv⟩ | ⟨u, v, huv⟩)
      · exact ⟨[], v, by simpa using hv⟩
      · exact ⟨c :: u, v, by simp [huv]⟩
    · rintro ⟨u, v, huv⟩
      rcases u with _ | ⟨d, u⟩
      · exact Or.inl ⟨v, by simpa using huv⟩
      · rcases (by simpa using huv : c = d ∧ rest = u ++ (pat ++ v)) with ⟨-, h⟩
        exact Or.inr ⟨u, v, by simp [h]⟩

theorem hasSub_prefix_pat (p q s : List Char) (h : hasSub (p ++ q) s = true) :
    hasSub p s = true := by
  rcases (hasSub_iff _ _).mp h with ⟨u, v, rfl⟩
  exact (hasSub_iff _ _).mpr ⟨u, q ++ v, by simp⟩

theorem hasSub_cons (pat : List Char) (c : Char) (rest : List Char) :
    hasSub pat (c :: rest) = (begins pat (c :: rest) || hasSub pat rest) := rfl

theorem repl3_cons_ne (c : Char) (rest : List Char) (h : c ≠ btick) :
    repl3 (c :: rest) = c :: repl3 rest := by
  match rest with
  | [] => rfl
  | [d] => rfl
  | d :: e :: r =>
    show (if c = btick ∧ d = btick ∧ e = btick then repl3 r else c :: repl3 (d :: e :: r))
        = c :: repl3 (d :: e :: r)
    rw [if_neg]
    rintro ⟨hc, -⟩
    exact h hc

theorem begins2_repl3 (d e : Char) (r : List Char) (h : ¬(d = btick ∧ e = btick)) :
    begins [btick, btick] (repl3 (d :: e :: r)) = false := by
  by_cases hd : d = btick
  · subst hd
    have he : e ≠ btick := fun hh => h ⟨rfl, hh⟩
    match r with
    | [] =>
      show begins [btick, btick] [btick, e] = false
      simp [begins, he, Ne.symm he]
    | f :: r' =>
      show begins [btick, btick]
          (if btick = btick ∧ e = btick ∧ f = btick then repl3 r'
           else btick :: repl3 (e :: f :: r')) = false
      rw [if_neg (by rintro ⟨-, hh, -⟩; exact he hh)]
      rw [repl3_cons_ne e (f :: r') he]
      simp [begins, he, Ne.symm he]
  · rw [repl3_cons_ne d (e :: r) hd]
    simp [begins, hd, Ne.symm hd]

theorem repl3_no3_aux : ∀ (n : Nat) (s : List Char), s.length ≤ n →
    hasSub t3 (repl3 s) = false := by
  intro n
  induction n with
  | zero =>
    intro s hs
    have : s = [] := List.eq_nil_of_length_eq_zero (Nat.le_zero.mp hs)
    subst this
    decide
  | succ n ih =>
    intro s hs
    match s with
    | [] => decide
    | [c] => simp [repl3, hasSub, begins, t3]
    | [c, d] => simp [repl3, hasSub, begins, t3]
    | c :: d :: e :: r =>
      show hasSub t3
          (if c = btick ∧ d = btick ∧ e = btick then repl3 r
           else c :: repl3 (d :: e :: r)) = false
      by_cases hc : c = btick ∧ d = btick ∧ e = btick
      · rw [if_pos hc]
        exact ih r (by simp at hs; omega)
      · rw [if_neg hc]
        have hrec : hasSub t3 (repl3 (d :: e :: r)) = false :=
          ih (d :: e :: r) (by simp at hs ⊢; omega)
        simp only [hasSub, hrec, Bool.or_false]
        by_cases hcb : c = btick
        · subst hcb
          have hde : ¬(d = btick ∧ e = btick) := fun hde => hc ⟨rfl, hde⟩
          simpa [t3, begins] using begins2_repl3 d e r hde
        · simp [t3, begins, hcb, Ne.symm hcb]

theorem repl3_no3 (s : List Char) : hasSub t3 (repl3 s) = false :=
  repl3_no3_aux s.length s (Nat.le_refl _)

theorem repl3_id_aux : ∀ (n : Nat) (s : List Char), s.length ≤ n →
    hasSub t3 s = false → repl3 s = s := by
  intro n
  induction n with
  | zero =>
    intro s hs _
    have : s = [] := List.eq_nil_of_length_eq_zero (Nat.le_zero.mp hs)
    subst this; rfl
  | succ n ih =>
    intro s hs h
    match s with
    | [] => rfl
    | [c] => rfl
    | [c, d] => rfl
    | c :: d :: e :: r =>
      show (if c = btick ∧ d = btick ∧ e = btick then repl3 r
            else c :: repl3 (d :: e :: r)) = c :: d :: e :: r
      have hb : begins t3 (c :: d :: e :: r) = false ∧ hasSub t3 (d :: e :: r) = false := by
        have := h
        rw [hasSub_cons, Bool.or_eq_false_iff] at this
        exact this
      have hcond : ¬(c = btick ∧ d = btick ∧ e = btick) := by
        rintro ⟨rfl, rfl, rfl⟩
        have := hb.1
        simp [t3, begins] at this
      rw [if_neg hcond]
      rw [ih (d :: e :: r) (by simp at hs ⊢; omega) hb.2]

theorem repl3_id (s : List Char) (h : hasSub t3 s = false) : repl3 s = s :=
  repl3_id_aux s.length s (Nat.le_refl _) h

theorem replSql_id_aux : ∀ (n : Nat) (s : List Char), s.length ≤ n →
    hasSub t6 s = false → replSql s = s := by
  intro n
  induction n with
  | zero =>
    intro s hs _
    have : s = [] := List.eq_nil_of_length_eq_zero (Nat.le_zero.mp hs)
    subst this; rfl
  | succ n ih =>
    intro s hs h
    match s with
    | [] => rfl
    | [c] => rfl
    | [c, d] => rfl
    | [c, d, e] => rfl
    | [c, d, e, f] => rfl
    | [c, d, e, f, g] => rfl
    | c1 :: c2 :: c3 :: c4 :: c5 :: c6 :: r =>
      show (if c1 = btick ∧ c2 = btick ∧ c3 = btick ∧ c4 = 's' ∧ c5 = 'q' ∧ c6 = 'l'
            then replSql r
            else c1 :: replSql (c2 :: c3 :: c4 :: c5 :: c6 :: r))
          = c1 :: c2 :: c3 :: c4 :: c5 :: c6 :: r
      have hb : begins t6 (c1 :: c2 :: c3 :: c4 :: c5 :: c6 :: r) = false
          ∧ hasSub t6 (c2 :: c3 :: c4 :: c5 :: c6 :: r) = false := by
        have := h
        rw [hasSub_cons, Bool.or_eq_false_iff] at this
        exact this
      have hcond : ¬(c1 = btick ∧ c2 = btick ∧ c3 = btick ∧ c4 = 's' ∧ c5 = 'q' ∧ c6 = 'l') := by
        rintro ⟨rfl, rfl, rfl, rfl, rfl, rfl⟩
        have := hb.1
        simp [t6, begins] at this
      rw [if_neg hcond]
      rw [ih (c2 :: c3 :: c4 :: c5 :: c6 :: r) (by simp at hs ⊢; omega) hb.2]

theorem replSql_id (s : List Char) (h : hasSub t6 s = false) : replSql s = s :=
  replSql_id_aux s.length s (Nat.le_refl _) h

theorem dropW_parts (l : List Char) : ∃ u, l = u ++ dropW l := by
  induction l with
  | nil => exact ⟨[], rfl⟩
  | cons c r ih =>
    by_cases h : pySpace c
    · rcases ih with ⟨u, hu⟩
      exact ⟨c :: u, by simp [dropW, h, ← hu]⟩
    · exact ⟨[], by simp [dropW, h]⟩

theorem pyStrip_parts (l : List Char) : ∃ u v, l = u ++ pyStrip l ++ v := by
  rcases dropW_parts l with ⟨u, hu⟩
  rcases dropW_parts (dropW l).reverse with ⟨w, hw⟩
  refine ⟨u, w.reverse, ?_⟩
  have hsplit : dropW l = pyStrip l ++ w.reverse := by
    have := congrArg List.reverse hw
    simpa [pyStrip] using this
  calc l = u ++ dropW l := hu
    _ = u ++ (pyStrip l ++ w.reverse) := by rw [hsplit]
    _ = u ++ pyStrip l ++ w.reverse := by rw [List.append_assoc]

theorem hasSub_pyStrip_false (pat l : List Char) (h : hasSub pat l = false) :
    hasSub pat (pyStrip l) = false := by
  cases hps : hasSub pat (pyStrip l) with
  | false => rfl
  | true =>
    exfalso
    rcases (hasSub_iff _ _).mp hps with ⟨a, b, hab⟩
    rcases pyStrip_parts l with ⟨u, v, huv⟩
    have huv2 : l = u ++ (a ++ pat ++ b) ++ v := by rw [← hab]; exact huv
    have : hasSub pat l = true :=
      (hasSub_iff _ _).mpr ⟨u ++ a, b ++ v, by rw [huv2]; simp⟩
    simp [this] at h

theorem dropW_idem (l : List Char) : dropW (dropW l) = dropW l := by
  induction l with
  | nil => rfl
  | cons c r ih =>
    by_cases h : pySpace c
    · simp [dropW, h, ih]
    · simp [dropW, h]

theorem length_dropW_le (l : List Char) : (dropW l).length ≤ l.length := by
  induction l with
  | nil => simp [dropW]
  | cons c r ih =>
    by_cases h : pySpace c
    · rw [show dropW (c :: r) = dropW r from by simp [dropW, h]]
      exact Nat.le_trans ih (by simp)
    · simp [dropW, h]

theorem dropW_fix_iff (l : List Char) (h : dropW l = l) :
    l = [] ∨ ∃ c t, l = c :: t ∧ pySpace c = false := by
  cases l with
  | nil => exact Or.inl rfl
  | cons c t =>
    right
    refine ⟨c, t, rfl, ?_⟩
    by_cases hc : pySpace c
    · exfalso
      have hd : dropW (c :: t) = dropW t := by simp [dropW, hc]
      rw [hd] at h
      have hlen := congrArg List.length h
      have := length_dropW_le t
      simp at hlen
      omega
    · simpa using hc

theorem dropW_append_last (x : List Char) (a : Char) (ha : pySpace a = false) :
    ∃ z, dropW (x ++ [a]) = z ++ [a] := by
  induction x with
  | nil => exact ⟨[], by simp [dropW, ha]⟩
  | cons c r ih =>
    by_cases h : pySpace c
    · simpa [dropW, h] using ih
    · exact ⟨c :: r, by simp [dropW, h]⟩

theorem dropW_pyStrip (l : List Char) : dropW (pyStrip l) = pyStrip l := by
  have hAfix : dropW (dropW l) = dropW l := dropW_idem l
  rcases dropW_fix_iff (dropW l) hAfix with hnil | ⟨c, t, hct, hc⟩
  · simp [pyStrip, hnil, dropW]
  · rcases dropW_append_last t.reverse c hc with ⟨z, hz⟩
    have hrev : (dropW l).reverse = t.reverse ++ [c] := by simp [hct]
    calc dropW (pyStrip l) = dropW ((dropW (dropW l).reverse).reverse) := rfl
      _ = dropW ((z ++ [c]).reverse) := by rw [hrev, hz]
      _ = dropW (c :: z.reverse) := by simp
      _ = c :: z.reverse := by simp [dropW, hc]
      _ = (z ++ [c]).reverse := by simp
      _ = pyStrip l := by rw [← hz, ← hrev]; rfl

theorem pyStrip_idem (l : List Char) : pyStrip (pyStrip l) = pyStrip l := by
  have h1 : dropW (pyStrip l) = pyStrip l := dropW_pyStrip l
  have h2 : dropW ((pyStrip l).reverse) = (pyStrip l).reverse := by
    have hr : (pyStrip l).reverse = dropW ((dropW l).reverse) := by simp [pyStrip]
    rw [hr]
    exact dropW_idem ((dropW l).reverse)
  calc pyStrip (pyStrip l) = (dropW (dropW (pyStrip l)).reverse).reverse := rfl
    _ = (dropW ((pyStrip l).reverse)).reverse := by rw [h1]
    _ = ((pyStrip l).reverse).reverse := by rw [h2]
    _ = pyStrip l := by simp

theorem t6_eq : t6 = t3 ++ ['s', 'q', 'l'] := rfl

theorem clean_sql_query_idem (s : String) :
    clean_sql_query (clean_sql_query s) = clean_sql_query s := by
  have h3 : hasSub t3 (repl3 (replSql s.data)) = false := repl3_no3 (replSql s.data)
  have h3v : hasSub t3 (pyStrip (repl3 (replSql s.data))) = false :=
    hasSub_pyStrip_false _ _ h3
  have h6v : hasSub t6 (pyStrip (repl3 (replSql s.data))) = false := by
    cases h : hasSub t6 (pyStrip (repl3 (replSql s.data))) with
    | false => rfl
    | true =>
      exfalso
      have := hasSub_prefix_pat t3 ['s', 'q', 'l'] _ (t6_eq ▸ h)
      simp [this] at h3v
  have hsql : replSql (pyStrip (repl3 (replSql s.data))) = pyStrip (repl3 (replSql s.data)) :=
    replSql_id _ h6v
  have h33 : repl3 (pyStrip (repl3 (replSql s.data))) = pyStrip (repl3 (replSql s.data)) :=
    repl3_id _ h3v
  show String.mk (pyStrip (repl3 (replSql (String.mk (pyStrip (repl3 (replSql s.data)))).data)))
      = String.mk (pyStrip (repl3 (replSql s.data)))
  have hdata : (String.mk (pyStrip (repl3 (replSql s.data)))).data
      = pyStrip (repl3 (replSql s.data)) := rfl
  rw [hdata, hsql, h33, pyStrip_idem]

theorem strData_append (a b : String) : (a ++ b).data = a.data ++ b.data := by
  cases a
  cases b
  rfl

theorem begins_append_false (p : List Char) : ∀ (l X : List Char),
    begins (p.take l.length) l = false → begins p (l ++ X) = false := by
  induction p with
  | nil =>
    intro l X h
    cases l <;> simp [begins, List.take] at h
  | cons a p ih =>
    intro l X h
    cases l with
    | nil => simp [begins, List.take] at h
    | cons b l' =>
      simp only [List.take, begins, List.cons_append] at h ⊢
      cases hab : (a == b) with
      | false => simp
      | true =>
        simp only [hab, Bool.true_and] at h ⊢
        exact ih l' X h

theorem strStartsWith_concat (p X : String) : strStartsWith (p ++ X) p = true := by
  unfold strStartsWith
  rw [strData_append]
  exact begins_append_self p.data X.data

theorem strContains_append_right (pre pat : String) :
    strContains (pre ++ pat) pat = true := by
  unfold strContains
  rw [strData_append]
  exact (hasSub_iff _ _).mpr ⟨pre.data, [], by simp⟩

/-- C4: chat(question, history) never lets an exception propagate: whenever the
routed pipeline raises, chat returns an apology string that begins with the
apology marker and carries the error message, and the history is left unchanged. -/
theorem C4_exception_funnel (question : String) (history : List (String × String))
    (router : String → String → RouteOracles) (e : String)
    (hexc : (route_and_process (router question (_format_history history))).result
      = PyResult.exc e) :
    (chat question history router).1 = "抱歉，处理您的问题时出现错误: " ++ e
    ∧ strStartsWith (chat question history router).1 "抱歉" = true
    ∧ strContains (chat question history router).1 e = true
    ∧ (chat question history router).2 = history := by
  have hch : chat question history router = ("抱歉，处理您的问题时出现错误: " ++ e, history) := by
    unfold chat
    rw [hexc]
  rw [hch]
  refine ⟨rfl, ?_, ?_, rfl⟩
  · show strStartsWith ("抱歉，处理您的问题时出现错误: " ++ e) "抱歉" = true
    have hsplit : ("抱歉，处理您的问题时出现错误: " : String)
        = "抱歉" ++ "，处理您的问题时出现错误: " := by decide
    rw [hsplit, String.append_assoc]
    exact strStartsWith_concat "抱歉" ("，处理您的问题时出现错误: " ++ e)
  · exact strContains_append_right "抱歉，处理您的问题时出现错误: " e

theorem C4_witness :
    (chat "你好" [] exRouterAttr).1
      = "抱歉，处理您的问题时出现错误: " ++ "AttributeError: object has no attribute get"
    ∧ strStartsWith (chat "你好" [] exRouterAttr).1 "抱歉" = true
    ∧ strContains (chat "你好" [] exRouterAttr).1 "AttributeError: object has no attribute get" = true
    ∧ (chat "你好" [] exRouterAttr).2 = [] :=
  C4_exception_funnel "你好" [] exRouterAttr "AttributeError: object has no attribute get"
    (by decide)

/-- C2 counterexample: the streaming path used by every handler returns the empty
string as a silent success when the model produces zero non-empty fragments. -/
theorem C2_counterexample : _handle_streaming "SQL生成" [] none = "" := rfl

/-- C2 amended: _handle_streaming yields the empty string on zero fragments while
the unused process_streaming_response converts zero fragments into an explicit
no-response error message. -/
theorem C2_amended (errorPre : String) :
    _handle_streaming errorPre [] none = ""
    ∧ process_streaming_response [] none = "处理响应时发生错误: 未收到有效响应\n建议稍后重试。" :=
  ⟨rfl, rfl⟩

/-- C5: in handle_sql_data, a stage-1 output containing an error or timeout marker
is returned directly and the database stage is never consulted; otherwise the
returned string is exactly the stage-3 explanation of the executed query. -/
theorem C5_early_exit (question schemaStr : String) (fmtSql : String → String → String)
    (fmtExplain : String → String → String → String) (stream : String → String)
    (dbRun dbRun' : String → PyResult String) :
    ((strContains (stream (fmtSql schemaStr question)) "出错"
        || strContains (stream (fmtSql schemaStr question)) "超时") = true →
      handle_sql_data question schemaStr fmtSql fmtExplain stream dbRun
        = stream (fmtSql schemaStr question)
      ∧ handle_sql_data question schemaStr fmtSql fmtExplain stream dbRun
        = handle_sql_data question schemaStr fmtSql fmtExplain stream dbRun')
    ∧ ((strContains (stream (fmtSql schemaStr question)) "出错"
        || strContains (stream (fmtSql schemaStr question)) "超时") = false →
      handle_sql_data question schemaStr fmtSql fmtExplain stream dbRun
        = stream (fmtExplain question (clean_sql_query (stream (fmtSql schemaStr question)))
            (run_query dbRun (clean_sql_query (stream (fmtSql schemaStr question)))))) := by
  constructor
  · intro h
    constructor <;> simp [handle_sql_data, h]
  · intro h
    simp [handle_sql_data, h]

theorem C5_witness :
    (handle_sql_data "查一下" "信息" exFmt2 exFmt3 exStream5a exDbRun = "SQL生成超时，请稍后重试。"
    ∧ handle_sql_data "查一下" "信息" exFmt2 exFmt3 exStream5a exDbRun
      = handle_sql_data "查一下" "信息" exFmt2 exFmt3 exStream5a exDbRunE)
    ∧ handle_sql_data "查一下" "信息" exFmt2 exFmt3 exStream5b exDbRun
      = exStream5b (exFmt3 "查一下" (clean_sql_query (exStream5b (exFmt2 "信息" "查一下")))
          (run_query exDbRun (clean_sql_query (exStream5b (exFmt2 "信息" "查一下"))))) :=
  ⟨(C5_early_exit "查一下" "信息" exFmt2 exFmt3 exStream5a exDbRun exDbRunE).1 (by decide),
   (C5_early_exit "查一下" "信息" exFmt2 exFmt3 exStream5b exDbRun exDbRunE).2 (by decide)⟩

/-- C6: the visualization config validation returns an error string naming the
missing fields when any of the six required fields is absent, and an error string
naming the invalid chart type when chart_type is not one of the four allowed
values; in both cases the result does not depend on the SQL runner, the chart
generator or the filesystem, so no SQL is executed and no chart file is created. -/
theorem C6_config_validation (config : List (String × String)) (runQ : String → String)
    (lit : String → PyResult Rows) (gen : Rows → List (String × String) → PyResult ChartInfo)
    (fexists : String → Bool) :
    (missingFieldsOf config ≠ [] →
      handle_visualization_postparse config runQ lit gen fexists
        = "图表配置缺少必要字段: " ++ String.intercalate ", " (missingFieldsOf config))
    ∧ (∀ ct, missingFieldsOf config = [] → config.lookup "chart_type" = some ct →
        validChartTypes.contains ct = false →
        handle_visualization_postparse config runQ lit gen fexists
          = "不支持的图表类型: " ++ ct) := by
  constructor
  · intro h
    have hne : (missingFieldsOf config).isEmpty = false := by
      cases hm : missingFieldsOf config with
      | nil => exact absurd hm h
      | cons a l => rfl
    simp [handle_visualization_postparse, hne]
  · intro ct h1 h2 h3
    have h3m : ct ∉ validChartTypes := by simpa using h3
    simp [handle_visualization_postparse, h1, h2, h3m]

theorem C6_witness :
    handle_visualization_postparse exCfgMissingY exRunQ6 exLit6 exGen6 exFe6
      = "图表配置缺少必要字段: " ++ String.intercalate ", " (missingFieldsOf exCfgMissingY)
    ∧ handle_visualization_postparse exCfgDonut exRunQ6 exLit6 exGen6 exFe6
      = "不支持的图表类型: " ++ "donut" :=
  ⟨(C6_config_validation exCfgMissingY exRunQ6 exLit6 exGen6 exFe6).1 (by decide),
   (C6_config_validation exCfgDonut exRunQ6 exLit6 exGen6 exFe6).2 "donut"
     (by decide) (by decide) (by decide)⟩

/-- C1: the history invariant of the spec fails on the code. A failed exchange
whose result is the apology string returned by route_and_process is still
appended to the session history by chat (line 808), so after one failed exchange
the history length is 1, not 0; and a subsequent successful exchange is appended
both by chat and by the app layer, giving length 3, not 1. -/
theorem C1_history_bug :
    (app_exchange "列出所有表" [] exRouterFail).length = 1
    ∧ (app_exchange "你好" (app_exchange "列出所有表" [] exRouterFail) exRouterOk).length = 3 := by
  constructor <;> rfl

theorem collectReportData_skip (runQ : String → String) (lit : String → PyResult Rows)
    (qbad : QueryInfo) (e : String) (hfail : lit (runQ qbad.sql) = PyResult.exc e)
    (qs1 qs2 : List QueryInfo) :
    collectReportData runQ lit (qs1 ++ qbad :: qs2)
      = collectReportData runQ lit (qs1 ++ qs2) := by
  induction qs1 with
  | nil => simp [collectReportData, hfail]
  | cons q qs ih => simp [collectReportData, ih]

theorem collectReportData_congr (runQ runQ' : String → String) (lit : String → PyResult Rows)
    (qs : List QueryInfo) (h : ∀ q ∈ qs, sameShape (lit (runQ q.sql)) (lit (runQ' q.sql))) :
    collectReportData runQ lit qs = collectReportData runQ' lit qs := by
  induction qs with
  | nil => rfl
  | cons q rest ih =>
    have hq := h q (by simp)
    have hrest := ih (fun x hx => h x (by simp [hx]))
    cases hl : lit (runQ q.sql) with
    | exc e1 =>
      cases hl' : lit (runQ' q.sql) with
      | exc e2 => simp [collectReportData, hl, hl', hrest]
      | ok r2 => rw [hl, hl'] at hq; simp [sameShape] at hq
    | ok r1 =>
      cases hl' : lit (runQ' q.sql) with
      | exc e2 => rw [hl, hl'] at hq; simp [sameShape] at hq
      | ok r2 =>
        rw [hl, hl'] at hq
        have hr : r1 = r2 := hq
        subst hr
        simp [collectReportData, hl, hl', hrest]

/-- C7: in the report per-query loop, a query whose execution fails is simply
skipped — the collected chart data and query results are those of the remaining
queries — and the final report output is independent of the failing query's
error message. -/
theorem C7_per_query_isolation (question : String) (outline : Outline)
    (qs1 qs2 : List QueryInfo) (qbad : QueryInfo) (e e' : String)
    (runQ runQ' : String → String) (lit : String → PyResult Rows) (stream : String → String)
    (fmtContent : String → String → String → String) (dumpO : Outline → String)
    (dumpR : List (String × Rows) → String)
    (gen : String → String → List (Rows × List (String × String)) → PyResult (String × String))
    (hq : outline.queries = some (qs1 ++ qbad :: qs2))
    (hfail : lit (runQ qbad.sql) = PyResult.exc e)
    (hfail' : lit (runQ' qbad.sql) = PyResult.exc e')
    (hagree : ∀ s, s ≠ qbad.sql → runQ' s = runQ s) :
    collectReportData runQ lit (qs1 ++ qbad :: qs2) = collectReportData runQ lit (qs1 ++ qs2)
    ∧ handle_report_from_outline question outline runQ lit stream fmtContent dumpO dumpR gen
      = handle_report_from_outline question outline runQ' lit stream fmtContent dumpO dumpR gen := by
  have hskip := collectReportData_skip runQ lit qbad e hfail qs1 qs2
  have hcongr : collectReportData runQ lit (qs1 ++ qbad :: qs2)
      = collectReportData runQ' lit (qs1 ++ qbad :: qs2) := by
    apply collectReportData_congr
    intro q _
    by_cases hsql : q.sql = qbad.sql
    · rw [hsql, hfail, hfail']
      trivial
    · rw [hagree q.sql hsql]
      cases lit (runQ q.sql) <;> simp [sameShape]
  refine ⟨hskip, ?_⟩
  unfold handle_report_from_outline
  rw [hq]
  simp only [Option.getD_some]
  rw [hcongr]

theorem C7_witness :
    collectReportData exRunQ7 exLit7 ([exQ1] ++ exQbad :: [exQ3])
      = collectReportData exRunQ7 exLit7 ([exQ1] ++ [exQ3])
    ∧ handle_report_from_outline "生成报告" exOutline7 exRunQ7 exLit7 exStream7 exFmt3
        exDumpO exDumpR exGen7
      = handle_report_from_outline "生成报告" exOutline7 exRunQ7E exLit7 exStream7 exFmt3
        exDumpO exDumpR exGen7 :=
  C7_per_query_isolation "生成报告" exOutline7 [exQ1] [exQ3] exQbad
    "invalid literal" "invalid literal" exRunQ7 exRunQ7E exLit7 exStream7 exFmt3
    exDumpO exDumpR exGen7 rfl (by decide) (by decide)
    (fun s hs => by
      simp only [exQbad] at hs
      simp [exRunQ7, exRunQ7E, hs])

theorem route_sub_shape (o : RouteOracles) (t : JPrim) :
    (route_sub o t).subCalled = true
    ∧ (route_sub o t).topSeen = some t
    ∧ (∀ d, (route_sub o t).dispatched = some d → d.carriesSub = true) := by
  refine ⟨?_, ?_, ?_⟩
  · unfold route_sub
    repeat first | rfl | split
  · unfold route_sub
    repeat first | rfl | split
  · intro d hd
    have hdisp : (route_sub o t).dispatched = none
        ∨ (route_sub o t).dispatched = some Dispatch.dbStructure
        ∨ (route_sub o t).dispatched = some Dispatch.sqlData := by
      unfold route_sub
      repeat first | (left; rfl) | (right; left; rfl) | (right; right; rfl) | split
    rcases hdisp with h | h | h <;> rw [h] at hd
    · exact absurd hd (by simp)
    · cases hd; rfl
    · cases hd; rfl

theorem route_top_shape (o : RouteOracles) (fields : List (String × JPrim)) :
    ((route_top o fields).subCalled = true
      ↔ (route_top o fields).topSeen = some (JPrim.jstr "sql_query"))
    ∧ (∀ d, (route_top o fields).dispatched = some d →
        (d.carriesSub = true ↔ (route_top o fields).subCalled = true)) := by
  unfold route_top
  cases hlk : fields.lookup "type" with
  | none => exact ⟨by simp, by intro d hd; simp at hd⟩
  | some t =>
    dsimp only
    by_cases htr : pyTruthy t = false
    · rw [if_pos htr]
      have hne : t ≠ JPrim.jstr "sql_query" := by
        intro h
        subst h
        exact absurd htr (by decide)
      exact ⟨by simp [hne], by intro d hd; simp at hd⟩
    · rw [if_neg htr]
      by_cases hsq : t = JPrim.jstr "sql_query"
      · subst hsq
        rw [if_pos rfl]
        obtain ⟨h1, h2, h3⟩ := route_sub_shape o (JPrim.jstr "sql_query")
        refine ⟨by simp [h1, h2], ?_⟩
        intro d hd
        simp [h1, h3 d hd]
      · rw [if_neg hsq]
        by_cases hr : t = JPrim.jstr "report"
        · subst hr
          rw [if_pos rfl]
          refine ⟨by simp, ?_⟩
          intro d hd
          dsimp only at hd ⊢
          cases hd
          decide
        · rw [if_neg hr]
          by_cases hv : t = JPrim.jstr "visualization"
          · subst hv
            rw [if_pos rfl]
            refine ⟨by simp, ?_⟩
            intro d hd
            dsimp only at hd ⊢
            cases hd
            decide
          · rw [if_neg hv]
            by_cases hc : t = JPrim.jstr "chat"
            · subst hc
              rw [if_pos rfl]
              refine ⟨by simp, ?_⟩
              intro d hd
              dsimp only at hd ⊢
              cases hd
              decide
            · rw [if_neg hc]
              exact ⟨by simp [hsq], by intro d hd; simp at hd⟩

/-- C8: the second (sub-intent) classification call is issued exactly when the
first classification produced type sql_query, and a dispatched handler carries a
sub-intent exactly when that call was issued. -/
theorem C8_sub_intent_iff (o : RouteOracles) :
    ((route_and_process o).subCalled = true
      ↔ (route_and_process o).topSeen = some (JPrim.jstr "sql_query"))
    ∧ (∀ d, (route_and_process o).dispatched = some d →
        (d.carriesSub = true ↔ (route_and_process o).subCalled = true)) := by
  unfold route_and_process
  cases hlo : o.llmOk with
  | exc e => exact ⟨by simp, by intro d hd; simp at hd⟩
  | ok u =>
    try dsimp only
    cases hrr : o.routerResp with
    | exc e => exact ⟨by simp, by intro d hd; simp at hd⟩
    | ok content =>
      try dsimp only
      cases hld : o.loads (_clean_json_response content) with
      | exc e => exact ⟨by simp, by intro d hd; simp at hd⟩
      | ok parsed =>
        try dsimp only
        cases parsed with
        | jobj fields => exact route_top_shape o fields
        | jarr n => exact ⟨by simp, by intro d hd; simp at hd⟩
        | jprim p => exact ⟨by simp, by intro d hd; simp at hd⟩

theorem C8_witness :
    Dispatch.carriesSub Dispatch.report = true ↔ (route_and_process exRoute8).subCalled = true :=
  (C8_sub_intent_iff exRoute8).2 Dispatch.report (by decide)

/-- C9: when the partial schema text carries the error marker, the structure and
visualization handlers reject early without issuing any streaming call, while the
report handler performs no such check: it always sends the outline prompt, and
that prompt embeds the schema text verbatim. -/
theorem C9_report_no_schema_check (question historyText schemaStr : String)
    (fmtDb fmtVis : String → String → String) (stream : String → String)
    (loadsCfg : String → PyResult (List (String × String))) (runQ : String → String)
    (lit : String → PyResult Rows) (gen : Rows → List (String × String) → PyResult ChartInfo)
    (fexists : String → Bool) (loadsOutline : String → PyResult Outline)
    (fmtContent : String → String → String → String) (dumpO : Outline → String)
    (dumpR : List (String × Rows) → String)
    (genR : String → String → List (Rows × List (String × String)) → PyResult (String × String))
    (h : strContains schemaStr "错误" = true) :
    (handle_db_structure question schemaStr fmtDb stream).2 = none
    ∧ (handle_db_structure question schemaStr fmtDb stream).1 = "获取数据库结构失败：" ++ schemaStr
    ∧ (handle_visualization question schemaStr fmtVis stream loadsCfg runQ lit gen fexists).2
      = none
    ∧ (handle_report question historyText schemaStr stream loadsOutline runQ lit fmtContent
        dumpO dumpR genR).2 = some (report_outline_human question schemaStr historyText)
    ∧ strContains (report_outline_human question schemaStr historyText) schemaStr = true := by
  refine ⟨?_, ?_, ?_, ?_, ?_⟩
  · simp [handle_db_structure, h]
  · simp [handle_db_structure, h]
  · simp [handle_visualization, h]
  · unfold handle_report
    dsimp only
    cases hres : loadsOutline (stream (report_outline_human question schemaStr historyText)) with
    | exc e => simp [hres]
    | ok outline =>
      simp only [hres]
      cases hmiss : outlineFirstMissing outline <;> simp [hmiss]
  · unfold strContains report_outline_human
    refine (hasSub_iff _ _).mpr
      ⟨"\n            数据库结构：\n            ".data,
       ("\n            \n            历史记录：\n            " ++ historyText ++
        "\n            \n            用户需求：" ++ question ++ "\n            ").data, ?_⟩
    simp [strData_append, List.append_assoc]

theorem C9_witness :
    (handle_db_structure "生成报告" exSchemaErr exFmt2 exStream7).2 = none
    ∧ (handle_db_structure "生成报告" exSchemaErr exFmt2 exStream7).1
      = "获取数据库结构失败：" ++ exSchemaErr
    ∧ (handle_visualization "生成报告" exSchemaErr exFmt2 exStream7 exLoadsCfg exRunQ6 exLit6
        exGen6 exFe6).2 = none
    ∧ (handle_report "生成报告" "" exSchemaErr exStream7 exLoadsOutline exRunQ6 exLit6 exFmt3
        exDumpO exDumpR exGen7).2 = some (report_outline_human "生成报告" exSchemaErr "")
    ∧ strContains (report_outline_human "生成报告" exSchemaErr "") exSchemaErr = true :=
  C9_report_no_schema_check "生成报告" "" exSchemaErr exFmt2 exFmt2 exStream7 exLoadsCfg
    exRunQ6 exLit6 exGen6 exFe6 exLoadsOutline exFmt3 exDumpO exDumpR exGen7 (by decide)

theorem not_starts_tbl (lit X : String)
    (h : begins ("\n表名：".data.take lit.data.length) lit.data = false) :
    strStartsWith (lit ++ X) "\n表名：" = false := by
  unfold strStartsWith
  rw [strData_append]
  exact begins_append_false _ _ _ h

theorem renderCol_not_tbl (c : ColumnDescr) :
    strStartsWith (renderCol c) "\n表名：" = false := by
  unfold renderCol strStartsWith
  simp only [strData_append, List.append_assoc]
  exact begins_append_false _ _ _ (by decide)

theorem renderFk_not_tbl (fk : FkDescr) :
    strStartsWith (renderFk fk) "\n表名：" = false := by
  unfold renderFk strStartsWith
  simp only [strData_append, List.append_assoc]
  exact begins_append_false _ _ _ (by decide)

theorem renderTable_count (m : Nat) (t : TableDescr) :
    (renderTable m t).countP (fun l => strStartsWith l "\n表名：") = 1 := by
  unfold renderTable
  have h1 : strStartsWith ("\n表名：" ++ t.name) "\n表名：" = true := strStartsWith_concat _ _
  have h2 : strStartsWith ("表描述：" ++ (if t.comment = "" then "无描述" else t.comment))
      "\n表名：" = false := not_starts_tbl _ _ (by decide)
  have h3 : strStartsWith "\n该表没有列信息" "\n表名：" = false := by decide
  have h4 : strStartsWith "\n重要字段：" "\n表名：" = false := by decide
  have h5 : strStartsWith ("\n" ++ sep50) "\n表名：" = false := by decide
  by_cases hc : (t.columns.take m).isEmpty
  · rw [if_pos hc]
    simp [List.countP_cons, h1, h2, h3]
  · rw [if_neg hc]
    have hcols : ((t.columns.take m).map renderCol).countP
        (fun l => strStartsWith l "\n表名：") = 0 := by
      rw [List.countP_eq_zero]
      intro a ha
      rcases List.mem_map.mp ha with ⟨c, -, rfl⟩
      simp [renderCol_not_tbl c]
    have hfks : (if t.fks.isEmpty then ([] : List String)
        else ["\n关联关系："] ++ t.fks.map renderFk).countP
        (fun l => strStartsWith l "\n表名：") = 0 := by
      by_cases hf : t.fks.isEmpty
      · simp [hf]
      · rw [if_neg hf, List.countP_eq_zero]
        intro a ha
        rcases List.mem_append.mp ha with ha | ha
        · simp at ha
          subst ha
          decide
        · rcases List.mem_map.mp ha with ⟨fk, -, rfl⟩
          simp [renderFk_not_tbl fk]
    simp only [List.countP_cons, List.countP_append, List.countP_nil, h1, h2, h4, h5,
      hcols, hfks]
    simp

theorem flatMap_renderTable_count (mc : Nat) (ts : List TableDescr) :
    (ts.flatMap (renderTable mc)).countP (fun l => strStartsWith l "\n表名：") = ts.length := by
  induction ts with
  | nil => simp
  | cons a rest ih =>
    rw [List.flatMap_cons, List.countP_append, renderTable_count, ih, List.length_cons]
    omega

theorem partialSchemaLines_le (db : Database) (mt mc : Nat) :
    (partialSchemaLines db mt mc).countP (fun l => strStartsWith l "\n表名：") ≤ mt := by
  have hhdr : strStartsWith "重要表结构信息：\n" "\n表名：" = false := by decide
  unfold partialSchemaLines selectTables
  simp only [List.countP_cons, flatMap_renderTable_count, hhdr, List.length_take]
  simp

/-- C3 counterexample: the rendered partial schema is identical for a database
whose full table count (2) exceeds max_tables = 1 and for one whose full table
count (1) does not, so no marker in the output can indicate truncation. -/
theorem C3_counterexample :
    get_partial_schema exDb2T 1 10 = get_partial_schema exDb1T 1 10
    ∧ exDb2T.tables.length = 2 ∧ exDb1T.tables.length = 1 := by
  refine ⟨by decide, rfl, rfl⟩

/-- C3 amended: get_partial_schema describes at most max_tables tables, but its
output carries no truncation marker — the text is the same whether or not the full
table count exceeds the bound. -/
theorem C3_amended :
    (∀ (db : Database) (maxTables maxColumns : Nat),
      (partialSchemaLines db maxTables maxColumns).countP
        (fun l => strStartsWith l "\n表名：") ≤ maxTables)
    ∧ get_partial_schema exDb2T 1 10 = get_partial_schema exDb1T 1 10 :=
  ⟨fun db mt mc => partialSchemaLines_le db mt mc, by decide⟩

/-- C10 counterexample: the JSON response cleaner is not idempotent. On the input
consisting of two backticks, a newline and a backtick, one application yields a
three-backtick fence (newline removal splices the backticks together) and a second
application removes it, giving a different string. -/
theorem C10_counterexample :
    _clean_json_response (_clean_json_response "``\n`") ≠ _clean_json_response "``\n`" := by
  decide

/-- C10 amended: clean_sql_query is idempotent for every string, but
_clean_json_response is not, because its newline removal runs after fence removal
and can splice a new fence marker. -/
theorem C10_amended :
    (∀ s : String, clean_sql_query (clean_sql_query s) = clean_sql_query s)
    ∧ _clean_json_response (_clean_json_response "``\n`") ≠ _clean_json_response "``\n`" :=
  ⟨clean_sql_query_idem, by decide⟩

end DbChat
